import Mathlib

/-!
Verification of the FSND_CoffeeShop backend (`src/backend/src/api.py`) and of
its bearer-token authorization layer as described by the specification.

Embedding conventions:
* byte/character strings handled by the token layer are `List Nat` of byte
  codes; Python dicts used as error payloads are association lists;
* fallible operations return `Except AuthError _`;
* the drink store (the persisted `drinks` table) is a `List Drink`, and a
  handler's persistence effects are recorded as an explicit trace of `DbOp`s.

The auth module (`auth/auth.py`) and the models module (`database/models.py`)
are imported by `api.py` but are not part of the sources; the definitions
below that stand for them are modelled from the specification and are marked
`Modelled from the spec:` in their doc comments.
-/

/-! ## Error payloads and the AuthError taxonomy -/

/-- Lookup in a Python-style dict modelled as an association list:
`d.get(k, default)`. -/
def dictGet (m : List (String × String)) (k : String) (default : String) : String :=
  match m.lookup k with
  | some v => v
  | none => default

/-- `AuthError` as raised by the auth layer and caught by `api.py`'s
error handler: an HTTP-style status code and an `error` payload dict
(normally `{code, description}`). -/
structure AuthError where
  status_code : Nat
  error : List (String × String)
deriving Repr, DecidableEq

/-- Build the taxonomy's `{code, description}` payload at a given status. -/
def mkAuthError (code : String) (status : Nat) (description : String) : AuthError :=
  { status_code := status, error := [("code", code), ("description", description)] }

/-- The `code` field of an AuthError's payload. -/
def AuthError.code (e : AuthError) : String :=
  dictGet e.error "code" ""

/-- JSON error envelope returned by the Flask error handlers. -/
structure ErrorBody where
  success : Bool
  error : Nat
  message : String
deriving Repr, DecidableEq

/-- The `AuthError` handler of `api.py` (`auth_error`, lines 204-212):
returns `jsonify({"success": False, "error": error.status_code,
"message": error.error.get('description', 'unknown error')})` together with
the HTTP status `error.status_code`. -/
def auth_error (e : AuthError) : ErrorBody × Nat :=
  ({ success := false
     error := e.status_code
     message := dictGet e.error "description" "unknown error" },
   e.status_code)

/-! ## The drink model and the public read endpoint -/

/-- A row of the drinks table. The columns (`id`, `title`, `recipe`) are the
ones `api.py` reads and writes. -/
structure Drink where
  id : Nat
  title : String
  recipe : String
deriving Repr, DecidableEq

/-- Modelled from the spec: the `short()` data representation of a drink.
`database/models.py` is not among the sources; the spec only names the
representation, so it is modelled as the drink's data with the recipe
abbreviated to presence. -/
def Drink.short (d : Drink) : Nat × String := (d.id, d.title)

/-- Modelled from the spec: the `long()` data representation of a drink,
exposing the full row. -/
def Drink.long (d : Drink) : Nat × String × String := (d.id, d.title, d.recipe)

/-- JSON body of the drink-list endpoints. -/
structure DrinksBody where
  success : Bool
  drinks : List (Nat × String)
deriving Repr, DecidableEq

/-- The list comprehension `[drink.short() for drink in Drink.query.all()]`
of `retrieve_drinks` (line 32), written as the source iterates it. -/
def shortAll : List Drink → List (Nat × String)
  | [] => []
  | d :: ds => d.short :: shortAll ds

/-- `retrieve_drinks` (`api.py` lines 30-37): the GET /drinks handler body. -/
def retrieve_drinks (store : List Drink) : DrinksBody :=
  { success := true, drinks := shortAll store }

/-- The GET /drinks endpoint as registered (line 30): it carries no
`requires_auth` decorator, so the incoming Authorization header is never
consulted; the handler runs on the store alone. -/
def getDrinksEndpoint (_authHeader : Option (List Nat)) (store : List Drink) :
    DrinksBody :=
  retrieve_drinks store

/-! ## Startup: db_drop_and_create_all -/

/-- Modelled from the spec: `db_drop_and_create_all` of the missing models
module drops all records and recreates the schema, leaving an empty table
("THIS WILL DROP ALL RECORDS AND START YOUR DB FROM SCRATCH"). -/
def db_drop_and_create_all (_store : List Drink) : List Drink := []

/-- Module import of `api.py` (line 19): `db_drop_and_create_all()` is
invoked unconditionally on whatever store existed before startup. -/
def startupStore (preexisting : List Drink) : List Drink :=
  db_drop_and_create_all preexisting

/-! ## PATCH /drinks/id and its persistence effects -/

/-- A persistence operation on the drink store. -/
inductive DbOp where
  | insert (d : Drink)
  | update (d : Drink)
  | delete (d : Drink)
deriving Repr, DecidableEq

/-- `json.dumps` applied to the recipe value: serialization to a JSON
string (quoting suffices for the string-typed field the handler reads). -/
def jsonDumps (s : String) : String := "\"" ++ s ++ "\""

/-- JSON body of the endpoints answering with `long()` representations. -/
structure LongDrinksBody where
  success : Bool
  drinks : List (Nat × String × String)
deriving Repr, DecidableEq

/-- Result of a request handler: HTTP status, optional drinks body, the
trace of persistence operations it invoked, and the store afterwards. -/
structure HandlerResult where
  status : Nat
  body : Option LongDrinksBody
  ops : List DbOp
  store : List Drink
deriving Repr, DecidableEq

/-- `Drink.query.filter_by(id=drink_id).one_or_none()` (line 100). -/
def findDrink (store : List Drink) (drink_id : Nat) : Option Drink :=
  store.find? (fun d => d.id == drink_id)

/-- `patch_drink` (`api.py` lines 97-114). The request body's `title` and
`recipe` fields are `request.json.get(_, '')` with default `''`; a field
equal to `''` leaves the attribute alone. The handler mutates the in-memory
ORM object and returns its `long()` form, but calls no insert, update or
delete on the store. -/
def patch_drink (store : List Drink) (drink_id : Nat)
    (titleField recipeField : Option String) : HandlerResult :=
  match findDrink store drink_id with
  | none => { status := 404, body := none, ops := [], store := store }
  | some drink =>
    let titleVal := titleField.getD ""
    let d1 := if titleVal ≠ "" then { drink with title := titleVal } else drink
    let recipeVal := recipeField.getD ""
    let d2 := if recipeVal ≠ "" then { d1 with recipe := jsonDumps recipeVal } else d1
    { status := 200
      body := some { success := true, drinks := [d2.long] }
      ops := []
      store := store }

/-- The in-memory mutation `api.py` lines 105-109 perform on the found ORM
object: a non-empty `title` field replaces the title, a non-empty `recipe`
field replaces the recipe with its `json.dumps` serialization. -/
def patchedDrink (d : Drink) (titleField recipeField : Option String) : Drink :=
  let titleVal := titleField.getD ""
  let d1 := if titleVal ≠ "" then { d with title := titleVal } else d
  let recipeVal := recipeField.getD ""
  if recipeVal ≠ "" then { d1 with recipe := jsonDumps recipeVal } else d1

/-! ## Base64url (the compact token's segment encoding)

Modelled from the spec: the token library is not among the sources; the spec
fixes the format as unpadded base64url segments. Bytes and characters are
`Nat` codes. -/

/-- The base64url alphabet: sextet value to character code. -/
def sextetToCode (x : Nat) : Nat :=
  if x < 26 then x + 65
  else if x < 52 then x + 71
  else if x < 62 then x - 4
  else if x = 62 then 45
  else 95

/-- Inverse alphabet lookup: character code to sextet value, `none` on a
character outside the base64url alphabet. -/
def codeToSextet (c : Nat) : Option Nat :=
  if 65 ≤ c ∧ c ≤ 90 then some (c - 65)
  else if 97 ≤ c ∧ c ≤ 122 then some (c - 71)
  else if 48 ≤ c ∧ c ≤ 57 then some (c + 4)
  else if c = 45 then some 62
  else if c = 95 then some 63
  else none

/-- Translate every character of a segment through the inverse alphabet. -/
def decodeCodes : List Nat → Option (List Nat)
  | [] => some []
  | c :: cs =>
    match codeToSextet c with
    | none => none
    | some x =>
      match decodeCodes cs with
      | none => none
      | some xs => some (x :: xs)

/-- Regroup sextets into bytes. A single leftover sextet is invalid, and the
final sextet's unused low bits must be zero (canonical encoding). -/
def sextetsToBytes : List Nat → Option (List Nat)
  | [] => some []
  | [_] => none
  | [a, b] => if b % 16 = 0 then some [a * 4 + b / 16] else none
  | [a, b, c] =>
    if c % 4 = 0 then some [a * 4 + b / 16, b % 16 * 16 + c / 4] else none
  | a :: b :: c :: d :: rest =>
    match sextetsToBytes rest with
    | none => none
    | some bs =>
      some ((a * 4 + b / 16) :: (b % 16 * 16 + c / 4) :: (c % 4 * 64 + d) :: bs)

/-- Regroup bytes into sextets (the encoding direction). -/
def bytesToSextets : List Nat → List Nat
  | [] => []
  | [x] => [x / 4, x % 4 * 16]
  | [x, y] => [x / 4, x % 4 * 16 + y / 16, y % 16 * 4]
  | x :: y :: z :: rest =>
    x / 4 :: (x % 4 * 16 + y / 16) :: (y % 16 * 4 + z / 64) :: z % 64 ::
      bytesToSextets rest

/-- base64url-decode a segment of character codes into bytes. -/
def b64urlDecode (s : List Nat) : Option (List Nat) :=
  match decodeCodes s with
  | none => none
  | some xs => sextetsToBytes xs

/-- base64url-encode a byte list into a segment of character codes. -/
def b64urlEncode (b : List Nat) : List Nat :=
  (bytesToSextets b).map sextetToCode

/-! ## The authorization pipeline

Modelled from the spec: `auth/auth.py` is imported by `api.py` but is not
among the sources; the pipeline below follows the spec's components 4.1-4.5
and its error taxonomy. Cryptographic signature checking and JSON parsing of
the decoded segments are environment parameters. -/

/-- The `"Bearer "` scheme (with its single trailing space) as byte codes. -/
def bearerScheme : List Nat := [66, 101, 97, 114, 101, 114, 32]

/-- Split a byte string at `'.'` (code 46) separators. -/
def splitDots : List Nat → List (List Nat)
  | [] => [[]]
  | c :: cs =>
    if c = 46 then [] :: splitDots cs
    else
      match splitDots cs with
      | [] => [[c]]
      | seg :: rest => (c :: seg) :: rest

/-- Component 4.1, header part: obtain the raw token from the Authorization
header and split it into its three segments. Fails `invalid_header`/401 on a
missing header, a scheme other than the literal `"Bearer "`, or a remainder
that is not exactly three non-empty dot-separated segments. -/
def get_token_auth_header (h : Option (List Nat)) :
    Except AuthError (List Nat × List Nat × List Nat) :=
  match h with
  | none => .error (mkAuthError "invalid_header" 401 "Authorization header is expected.")
  | some s =>
    if bearerScheme.isPrefixOf s then
      match splitDots (s.drop 7) with
      | [a, b, c] =>
        if a ≠ [] ∧ b ≠ [] ∧ c ≠ [] then .ok (a, b, c)
        else .error (mkAuthError "invalid_header" 401 "Token segment is empty.")
      | _ => .error (mkAuthError "invalid_header" 401 "Token must have three segments.")
    else .error (mkAuthError "invalid_header" 401 "Authorization header must start with Bearer.")

/-- Token header mapping: at least `alg` and `kid`. -/
structure TokenHeader where
  alg : String
  kid : Option String
deriving Repr, DecidableEq

/-- The claim set carried by a token's payload. -/
structure ClaimSet where
  iss : Option String
  aud : Option String
  exp : Option Nat
  permissions : Option (List String)
deriving Repr, DecidableEq

/-- A public key record of the issuer's key set. -/
structure SigningKey where
  kid : String
  alg : String
  material : List Nat
deriving Repr, DecidableEq

/-- Admissible signing algorithms: `"none"` and anything not explicitly
supported are rejected. -/
def allowedAlgs : List String := ["RS256"]

/-- The environment of one verification: the resolved key set, the current
time, the configured issuer/audience expectations, and the two
externally-defined operations (segment parsing and cryptographic
verification). -/
structure AuthEnv where
  keys : List (String × SigningKey)
  now : Nat
  expectedIss : Option String
  expectedAud : Option String
  parseSegments : List Nat → List Nat → Option (TokenHeader × ClaimSet)
  sigValid : SigningKey → String → List Nat → List Nat → Bool

/-- Component 4.2: resolve the token header's `kid` against the key set;
a missing or unknown key id fails `invalid_header`/401. -/
def resolveKey (keys : List (String × SigningKey)) (kid : Option String) :
    Except AuthError SigningKey :=
  match kid with
  | none => .error (mkAuthError "invalid_header" 401 "Key id missing from token header.")
  | some k =>
    match keys.lookup k with
    | none => .error (mkAuthError "invalid_header" 401 "Unable to find the appropriate key.")
    | some key => .ok key

/-- Components 4.1-4.3 up to and including signature verification: extract
the raw token, base64url-decode its segments, parse header and payload,
resolve the key, check the algorithm allow-list, verify the signature over
the original `header.payload` signing input. -/
def authParse (env : AuthEnv) (h : Option (List Nat)) : Except AuthError ClaimSet :=
  match get_token_auth_header h with
  | .error e => .error e
  | .ok (hs, ps, ss) =>
    match b64urlDecode hs, b64urlDecode ps, b64urlDecode ss with
    | some hb, some pb, some sb =>
      match env.parseSegments hb pb with
      | none => .error (mkAuthError "invalid_header" 401 "Unable to parse token.")
      | some (th, cs) =>
        match resolveKey env.keys th.kid with
        | .error e => .error e
        | .ok key =>
          if th.alg ∈ allowedAlgs then
            if env.sigValid key th.alg (hs ++ (46 :: ps)) sb then .ok cs
            else .error (mkAuthError "invalid_signature" 401 "Signature verification failed.")
          else .error (mkAuthError "invalid_header" 401 "Algorithm not allowed.")
    | _, _, _ => .error (mkAuthError "invalid_header" 401 "Token segment is not valid base64url.")

/-- Configuration-gated issuer/audience validation (component 4.3). -/
def checkIssAud (env : AuthEnv) (cs : ClaimSet) : Except AuthError Unit :=
  match env.expectedIss with
  | some i =>
    if cs.iss = some i then
      match env.expectedAud with
      | some a =>
        if cs.aud = some a then .ok ()
        else .error (mkAuthError "invalid_claims" 401 "Invalid audience.")
      | none => .ok ()
    else .error (mkAuthError "invalid_claims" 401 "Invalid issuer.")
  | none =>
    match env.expectedAud with
    | some a =>
      if cs.aud = some a then .ok ()
      else .error (mkAuthError "invalid_claims" 401 "Invalid audience.")
    | none => .ok ()

/-- Standard-claim validation (component 4.3): an `exp` strictly in the past
fails `token_expired`/401 (zero clock-skew tolerance); then the configured
issuer/audience checks run. -/
def validate_claims (env : AuthEnv) (cs : ClaimSet) : Except AuthError Unit :=
  match cs.exp with
  | some e =>
    if e < env.now then .error (mkAuthError "token_expired" 401 "Token expired.")
    else checkIssAud env cs
  | none => checkIssAud env cs

/-- Component 4.4: the permission checker. A claim set without a
`permissions` field fails `invalid_claims`/400; a list not containing the
exact required string fails `unauthorized`/403. -/
def check_permissions (required : String) (cs : ClaimSet) : Except AuthError Unit :=
  match cs.permissions with
  | none => .error (mkAuthError "invalid_claims" 400 "Permissions not included in JWT.")
  | some perms =>
    if required ∈ perms then .ok ()
    else .error (mkAuthError "unauthorized" 403 "Permission not found.")

/-- Components 4.1-4.3 combined: decode, verify the signature, validate the
standard claims; returns the decoded claim set. -/
def authenticate (env : AuthEnv) (h : Option (List Nat)) : Except AuthError ClaimSet :=
  match authParse env h with
  | .error e => .error e
  | .ok cs =>
    match validate_claims env cs with
    | .error e => .error e
    | .ok _ => .ok cs

/-- Component 4.5, the Authorization Gate: authenticate, then (when a
required permission is given) check it; the first failure propagates
unchanged, and on success the claim set is returned as decoded. -/
def authorize (env : AuthEnv) (h : Option (List Nat)) (required : Option String) :
    Except AuthError ClaimSet :=
  match authenticate env h with
  | .error e => .error e
  | .ok cs =>
    match required with
    | none => .ok cs
    | some r =>
      match check_permissions r cs with
      | .error e => .error e
      | .ok _ => .ok cs

/-- A malformed Authorization header in the sense of component 4.1: absent,
not starting with the literal `"Bearer "` scheme, or whose remainder does
not split into exactly three non-empty dot-separated segments. -/
def MalformedHeader (h : Option (List Nat)) : Prop :=
  h = none ∨
    ∃ s, h = some s ∧
      (¬ bearerScheme.isPrefixOf s ∨
        ¬ ∃ a b c, splitDots (s.drop 7) = [a, b, c] ∧ a ≠ [] ∧ b ≠ [] ∧ c ≠ [])

/-! ## Concrete sample data used to instantiate the theorems -/

/-- A sample resolved signing key. -/
def sampleKey : SigningKey := { kid := "k1", alg := "RS256", material := [1, 2, 3] }

/-- A sample decoded claim set: unexpired, with one permission. -/
def sampleClaims : ClaimSet :=
  { iss := none, aud := none, exp := some 2000
    permissions := some ["get:drinks-detail"] }

/-- A sample decoded claim set with no `permissions` field. -/
def sampleClaimsNoPerms : ClaimSet :=
  { iss := none, aud := none, exp := some 2000, permissions := none }

/-- A sample decoded claim set whose `exp` is in the past. -/
def sampleClaimsExpired : ClaimSet :=
  { iss := none, aud := none, exp := some 500
    permissions := some ["get:drinks-detail"] }

/-- A sample environment whose parser yields the given claim set and whose
signature check accepts. -/
def sampleEnv (cs : ClaimSet) : AuthEnv :=
  { keys := [("k1", sampleKey)]
    now := 1000
    expectedIss := none
    expectedAud := none
    parseSegments := fun _ _ => some ({ alg := "RS256", kid := some "k1" }, cs)
    sigValid := fun _ _ _ _ => true }

/-- A sample raw Authorization header: `Bearer AA.AA.AA` as byte codes. -/
def sampleHeader : List Nat :=
  bearerScheme ++ [65, 65, 46, 65, 65, 46, 65, 65]

/-! ## Lemmas: the base64url alphabet and regrouping are inverses -/

theorem codeToSextet_lt {c x : Nat} (h : codeToSextet c = some x) : x < 64 := by
  unfold codeToSextet at h
  split_ifs at h <;> simp_all <;> omega

theorem sextetToCode_codeToSextet {c x : Nat} (h : codeToSextet c = some x) :
    sextetToCode x = c := by
  unfold codeToSextet at h
  unfold sextetToCode
  split_ifs at h <;> (try simp_all) <;> (try split_ifs) <;> omega

theorem decodeCodes_spec {cs xs : List Nat} (h : decodeCodes cs = some xs) :
    xs.map sextetToCode = cs ∧ ∀ x ∈ xs, x < 64 := by
  induction cs generalizing xs with
  | nil =>
    simp [decodeCodes] at h
    subst h
    simp
  | cons c cs ih =>
    unfold decodeCodes at h
    cases hc : codeToSextet c with
    | none => rw [hc] at h; simp at h
    | some x =>
      rw [hc] at h
      cases hd : decodeCodes cs with
      | none => rw [hd] at h; simp at h
      | some ys =>
        rw [hd] at h
        simp at h
        subst h
        obtain ⟨h1, h2⟩ := ih hd
        refine ⟨?_, ?_⟩
        · simp [sextetToCode_codeToSextet hc, h1]
        · intro z hz
          rcases List.mem_cons.mp hz with hz | hz
          · subst hz; exact codeToSextet_lt hc
          · exact h2 z hz

theorem bytesToSextets_sextetsToBytes :
    ∀ {s : List Nat}, (∀ x ∈ s, x < 64) → ∀ {bytes : List Nat},
      sextetsToBytes s = some bytes → bytesToSextets bytes = s := by
  intro s
  induction s using sextetsToBytes.induct with
  | case1 =>
    intro _ bytes h
    simp [sextetsToBytes] at h
    subst h
    rfl
  | case2 head =>
    intro _ bytes h
    simp [sextetsToBytes] at h
  | case3 a b hb =>
    intro hlt bytes h
    have ha64 : a < 64 := hlt a (by simp)
    have hb64 : b < 64 := hlt b (by simp)
    simp [sextetsToBytes, hb] at h
    subst h
    simp [bytesToSextets]
    omega
  | case4 a b hb =>
    intro hlt bytes h
    simp [sextetsToBytes, hb] at h
  | case5 a b c hc =>
    intro hlt bytes h
    have ha64 : a < 64 := hlt a (by simp)
    have hb64 : b < 64 := hlt b (by simp)
    have hc64 : c < 64 := hlt c (by simp)
    simp [sextetsToBytes, hc] at h
    subst h
    simp [bytesToSextets]
    refine ⟨by omega, by omega, by omega⟩
  | case6 a b c hc =>
    intro hlt bytes h
    simp [sextetsToBytes, hc] at h
  | case7 a b c d rest hrest ih =>
    intro hlt bytes h
    simp [sextetsToBytes, hrest] at h
  | case8 a b c d rest xs hrest ih =>
    intro hlt bytes h
    have ha64 : a < 64 := hlt a (by simp)
    have hb64 : b < 64 := hlt b (by simp)
    have hc64 : c < 64 := hlt c (by simp)
    have hd64 : d < 64 := hlt d (by simp)
    have hxs : bytesToSextets xs = rest :=
      ih (fun x hx => hlt x (by simp [hx])) hrest
    simp [sextetsToBytes, hrest] at h
    subst h
    simp [bytesToSextets, hxs]
    refine ⟨by omega, by omega, by omega, by omega⟩

theorem b64url_encode_decode {s bytes : List Nat} (h : b64urlDecode s = some bytes) :
    b64urlEncode bytes = s := by
  unfold b64urlDecode at h
  cases hd : decodeCodes s with
  | none => rw [hd] at h; simp at h
  | some xs =>
    rw [hd] at h
    simp at h
    obtain ⟨hmap, hbound⟩ := decodeCodes_spec hd
    have hbs := bytesToSextets_sextetsToBytes hbound h
    unfold b64urlEncode
    rw [hbs, hmap]

/-! ## Lemmas: handlers and pipeline plumbing -/

theorem shortAll_eq_map (ds : List Drink) : shortAll ds = ds.map Drink.short := by
  induction ds with
  | nil => rfl
  | cons d ds ih => simp [shortAll, ih]

theorem authorize_getToken_error {h : Option (List Nat)} {e : AuthError}
    (he : get_token_auth_header h = .error e) (env : AuthEnv)
    (required : Option String) : authorize env h required = .error e := by
  simp [authorize, authenticate, authParse, he]

/-! ## The claims -/

/-- C1: for every AuthError failure carrying a taxonomy status (400, 401 or
403) and an error payload with a description, the `auth_error` handler of
`api.py` returns the JSON body with `success = false`, `error` = the status
and `message` = the description, and sets the HTTP status to the same
status code. -/
theorem authErrorHandlerEnvelope (e : AuthError) (d : String)
    (_hstatus : e.status_code = 400 ∨ e.status_code = 401 ∨ e.status_code = 403)
    (hdesc : e.error.lookup "description" = some d) :
    auth_error e =
      ({ success := false, error := e.status_code, message := d },
        e.status_code) := by
  unfold auth_error dictGet
  rw [hdesc]

theorem authErrorHandlerEnvelope_witness :
    ((mkAuthError "unauthorized" 403 "Permission not found.").status_code = 400 ∨
      (mkAuthError "unauthorized" 403 "Permission not found.").status_code = 401 ∨
      (mkAuthError "unauthorized" 403 "Permission not found.").status_code = 403) ∧
    auth_error (mkAuthError "unauthorized" 403 "Permission not found.") =
      ({ success := false
         error := (mkAuthError "unauthorized" 403 "Permission not found.").status_code
         message := "Permission not found." },
        (mkAuthError "unauthorized" 403 "Permission not found.").status_code) :=
  ⟨Or.inr (Or.inr rfl),
    authErrorHandlerEnvelope (mkAuthError "unauthorized" 403 "Permission not found.")
      "Permission not found." (Or.inr (Or.inr rfl)) rfl⟩

/-- C2: read access is public. The GET /drinks endpoint consults no
Authorization header (its result is the same for every header value, and no
bearer-token check runs), and for every drink store it returns
`success = true` with the short representations of all stored drinks. -/
theorem getDrinksPublicRead (header : Option (List Nat)) (store : List Drink) :
    getDrinksEndpoint header store =
      { success := true, drinks := store.map Drink.short } ∧
    ∀ header', getDrinksEndpoint header' store = getDrinksEndpoint header store := by
  refine ⟨?_, fun _ => rfl⟩
  show retrieve_drinks store = _
  unfold retrieve_drinks
  rw [shortAll_eq_map]

/-- C9: the PATCH /drinks/id handler performs no persistence operation:
on every request naming an existing drink id it invokes no insert, update
or delete on the drink store and the persisted table is unchanged, even
though the response is a 200 whose body reports `success = true` with the
long representation of the modified drink. -/
theorem patchDrinkNoPersistence (store : List Drink) (drink_id : Nat)
    (titleField recipeField : Option String) (d : Drink)
    (hfound : findDrink store drink_id = some d) :
    (patch_drink store drink_id titleField recipeField).ops = [] ∧
    (patch_drink store drink_id titleField recipeField).store = store ∧
    (patch_drink store drink_id titleField recipeField).status = 200 ∧
    (patch_drink store drink_id titleField recipeField).body =
      some { success := true
             drinks := [(patchedDrink d titleField recipeField).long] } := by
  unfold patch_drink patchedDrink
  rw [hfound]
  exact ⟨rfl, rfl, rfl, rfl⟩

theorem patchDrinkNoPersistence_witness :
    findDrink [{ id := 1, title := "latte", recipe := "milk" }] 1 =
      some { id := 1, title := "latte", recipe := "milk" } ∧
    ((patch_drink [{ id := 1, title := "latte", recipe := "milk" }] 1
        (some "flat white") none).ops = [] ∧
      (patch_drink [{ id := 1, title := "latte", recipe := "milk" }] 1
        (some "flat white") none).store =
        [{ id := 1, title := "latte", recipe := "milk" }] ∧
      (patch_drink [{ id := 1, title := "latte", recipe := "milk" }] 1
        (some "flat white") none).status = 200 ∧
      (patch_drink [{ id := 1, title := "latte", recipe := "milk" }] 1
        (some "flat white") none).body =
        some { success := true, drinks := [(1, "flat white", "milk")] }) :=
  ⟨rfl,
    patchDrinkNoPersistence [{ id := 1, title := "latte", recipe := "milk" }] 1
      (some "flat white") none { id := 1, title := "latte", recipe := "milk" } rfl⟩

/-- C10: at module import `db_drop_and_create_all()` runs unconditionally,
so whatever store existed beforehand, the store after startup is empty and
the first GET /drinks returns `success = true` with an empty drink list. -/
theorem startupStoreEmpty (preexisting : List Drink) :
    startupStore preexisting = [] ∧
    retrieve_drinks (startupStore preexisting) =
      { success := true, drinks := [] } :=
  ⟨rfl, rfl⟩

/-- C3: for every valid, unexpired, correctly signed token (one the
authentication stages accept) whose claim set carries a permissions list
not containing the exact required permission string, the gate fails with
code `unauthorized` and HTTP status 403; and membership is an exact string
test against the sequence — the permission check succeeds precisely when
the required string is an element of the list. -/
theorem authorizeMissingScopeUnauthorized (env : AuthEnv) (h : Option (List Nat))
    (cs : ClaimSet) (perms : List String) (r : String)
    (hauth : authenticate env h = .ok cs)
    (hperms : cs.permissions = some perms)
    (hmem : r ∉ perms) :
    authorize env h (some r) =
      .error (mkAuthError "unauthorized" 403 "Permission not found.") ∧
    ∀ perms', check_permissions r { cs with permissions := some perms' } = .ok () ↔
      r ∈ perms' := by
  have hcp : check_permissions r cs =
      .error (mkAuthError "unauthorized" 403 "Permission not found.") := by
    unfold check_permissions
    rw [hperms]
    simp [hmem]
  refine ⟨?_, ?_⟩
  · simp [authorize, hauth, hcp]
  · intro perms'
    simp only [check_permissions]
    split_ifs with hmem' <;> simp [hmem']

theorem authorizeMissingScopeUnauthorized_witness :
    authenticate (sampleEnv sampleClaims) (some sampleHeader) = .ok sampleClaims ∧
    sampleClaims.permissions = some ["get:drinks-detail"] ∧
    ("post:drinks" ∉ ["get:drinks-detail"]) ∧
    authorize (sampleEnv sampleClaims) (some sampleHeader) (some "post:drinks") =
      .error (mkAuthError "unauthorized" 403 "Permission not found.") :=
  ⟨rfl, rfl, by decide,
    (authorizeMissingScopeUnauthorized (sampleEnv sampleClaims) (some sampleHeader)
      sampleClaims ["get:drinks-detail"] "post:drinks" rfl rfl (by decide)).1⟩

/-- C4: for every valid, unexpired, correctly signed token whose claim set
has no permissions field at all, the gate fails with code `invalid_claims`
and HTTP status 400. -/
theorem authorizeNoPermissionsField (env : AuthEnv) (h : Option (List Nat))
    (cs : ClaimSet) (r : String)
    (hauth : authenticate env h = .ok cs)
    (hperms : cs.permissions = none) :
    authorize env h (some r) =
      .error (mkAuthError "invalid_claims" 400 "Permissions not included in JWT.") := by
  have hcp : check_permissions r cs =
      .error (mkAuthError "invalid_claims" 400 "Permissions not included in JWT.") := by
    unfold check_permissions
    rw [hperms]
  simp [authorize, hauth, hcp]

theorem authorizeNoPermissionsField_witness :
    authenticate (sampleEnv sampleClaimsNoPerms) (some sampleHeader) =
      .ok sampleClaimsNoPerms ∧
    sampleClaimsNoPerms.permissions = none ∧
    authorize (sampleEnv sampleClaimsNoPerms) (some sampleHeader) (some "post:drinks") =
      .error (mkAuthError "invalid_claims" 400 "Permissions not included in JWT.") :=
  ⟨rfl, rfl,
    authorizeNoPermissionsField (sampleEnv sampleClaimsNoPerms) (some sampleHeader)
      sampleClaimsNoPerms "post:drinks" rfl rfl⟩

/-- C5: for every valid, unexpired, correctly signed token whose permissions
list contains the required scope string, the gate succeeds and returns the
decoded claim set unchanged — the very claim set the verification stages
decoded, with no mutation. -/
theorem authorizeGrantedScope (env : AuthEnv) (h : Option (List Nat))
    (cs : ClaimSet) (perms : List String) (r : String)
    (hauth : authenticate env h = .ok cs)
    (hperms : cs.permissions = some perms)
    (hmem : r ∈ perms) :
    authorize env h (some r) = .ok cs := by
  have hcp : check_permissions r cs = .ok () := by
    unfold check_permissions
    rw [hperms]
    simp [hmem]
  simp [authorize, hauth, hcp]

theorem authorizeGrantedScope_witness :
    authenticate (sampleEnv sampleClaims) (some sampleHeader) = .ok sampleClaims ∧
    sampleClaims.permissions = some ["get:drinks-detail"] ∧
    ("get:drinks-detail" ∈ ["get:drinks-detail"]) ∧
    authorize (sampleEnv sampleClaims) (some sampleHeader) (some "get:drinks-detail") =
      .ok sampleClaims :=
  ⟨rfl, rfl, by decide,
    authorizeGrantedScope (sampleEnv sampleClaims) (some sampleHeader)
      sampleClaims ["get:drinks-detail"] "get:drinks-detail" rfl rfl (by decide)⟩

/-- C7: for every token that passes decoding, key resolution and signature
verification but whose exp claim is strictly less than the current time,
the gate fails with code `token_expired` and HTTP status 401 — even though
the signature was valid, and regardless of which permission (if any) is
required. -/
theorem authorizeExpiredToken (env : AuthEnv) (h : Option (List Nat))
    (cs : ClaimSet) (e : Nat)
    (hparse : authParse env h = .ok cs)
    (hexp : cs.exp = some e)
    (hlt : e < env.now) :
    ∀ required, authorize env h required =
      .error (mkAuthError "token_expired" 401 "Token expired.") := by
  intro required
  have hval : validate_claims env cs =
      .error (mkAuthError "token_expired" 401 "Token expired.") := by
    unfold validate_claims
    rw [hexp]
    simp [hlt]
  have hauth : authenticate env h =
      .error (mkAuthError "token_expired" 401 "Token expired.") := by
    simp [authenticate, hparse, hval]
  simp [authorize, hauth]

theorem authorizeExpiredToken_witness :
    authParse (sampleEnv sampleClaimsExpired) (some sampleHeader) =
      .ok sampleClaimsExpired ∧
    sampleClaimsExpired.exp = some 500 ∧
    500 < (sampleEnv sampleClaimsExpired).now ∧
    authorize (sampleEnv sampleClaimsExpired) (some sampleHeader) (some "post:drinks") =
      .error (mkAuthError "token_expired" 401 "Token expired.") :=
  ⟨rfl, rfl, by decide,
    authorizeExpiredToken (sampleEnv sampleClaimsExpired) (some sampleHeader)
      sampleClaimsExpired 500 rfl rfl (by decide) (some "post:drinks")⟩

/-- C6: for every malformed Authorization header — absent, not starting with
the literal case-sensitive `"Bearer "` scheme (single space included), or
whose remainder does not split into exactly three non-empty dot-separated
segments — the gate fails with code `invalid_header` and HTTP status 401,
whatever the environment and the required permission. -/
theorem authorizeMalformedHeader (h : Option (List Nat))
    (hm : MalformedHeader h) (env : AuthEnv) (required : Option String) :
    ∃ d, authorize env h required =
      .error (mkAuthError "invalid_header" 401 d) := by
  have key : ∃ d, get_token_auth_header h =
      .error (mkAuthError "invalid_header" 401 d) := by
    rcases hm with hnone | ⟨s, hs, hbad⟩
    · subst hnone
      exact ⟨"Authorization header is expected.", rfl⟩
    · subst hs
      simp only [get_token_auth_header]
      by_cases hpre : bearerScheme.isPrefixOf s
      · rcases hbad with hb | hb
        · exact absurd hpre hb
        · rw [if_pos hpre]
          rcases hsp : splitDots (s.drop 7) with _ | ⟨a, _ | ⟨b, _ | ⟨c, _ | ⟨d', tl⟩⟩⟩⟩
          · exact ⟨"Token must have three segments.", rfl⟩
          · exact ⟨"Token must have three segments.", rfl⟩
          · exact ⟨"Token must have three segments.", rfl⟩
          · have hne : ¬(a ≠ [] ∧ b ≠ [] ∧ c ≠ []) := fun hcon =>
              hb ⟨a, b, c, hsp, hcon.1, hcon.2.1, hcon.2.2⟩
            exact ⟨"Token segment is empty.", by simp only [if_neg hne]⟩
          · exact ⟨"Token must have three segments.", rfl⟩
      · exact ⟨"Authorization header must start with Bearer.", by rw [if_neg hpre]⟩
  obtain ⟨d, hd⟩ := key
  exact ⟨d, authorize_getToken_error hd env required⟩

theorem authorizeMalformedHeader_witness :
    MalformedHeader none ∧
    ∃ d, authorize (sampleEnv sampleClaims) none (some "get:drinks-detail") =
      .error (mkAuthError "invalid_header" 401 d) :=
  ⟨Or.inl rfl,
    authorizeMalformedHeader none (Or.inl rfl) (sampleEnv sampleClaims)
      (some "get:drinks-detail")⟩

/-- C8: round-trip — for every token the decoder accepts (the raw header
yields three segments and the header and payload segments base64url-decode),
re-encoding the decoded header and payload bytes (without re-signing)
reproduces base64url segments byte-identical to the original ones. -/
theorem tokenSegmentsRoundtrip (h : Option (List Nat))
    (seg1 seg2 seg3 hb pb : List Nat)
    (_hex : get_token_auth_header h = .ok (seg1, seg2, seg3))
    (h1 : b64urlDecode seg1 = some hb)
    (h2 : b64urlDecode seg2 = some pb) :
    b64urlEncode hb = seg1 ∧ b64urlEncode pb = seg2 :=
  ⟨b64url_encode_decode h1, b64url_encode_decode h2⟩

theorem tokenSegmentsRoundtrip_witness :
    get_token_auth_header (some sampleHeader) =
      .ok ([65, 65], [65, 65], [65, 65]) ∧
    b64urlDecode [65, 65] = some [0] ∧
    (b64urlEncode [0] = [65, 65] ∧ b64urlEncode [0] = [65, 65]) :=
  ⟨rfl, rfl,
    tokenSegmentsRoundtrip (some sampleHeader) [65, 65] [65, 65] [65, 65]
      [0] [0] rfl rfl rfl⟩
